import Mathlib

/-!
Verification of the MCP-SERVERS repository (a collection of MCP tool
servers: Calendar, Dropbox, ElevenLabs, Instagram, PDF Tools).

The development shallowly embeds the handlers and dispatchers of the
source file. Python exceptions are modelled by an `Except PyError`
result; ambient effects (the clock, the network, the vendor SDKs, the
filesystem) are modelled by explicit parameters or environment records
whose fields stand for the outcome of each external call of one
invocation. CPython `datetime` semantics (strptime with the fixed
"%Y-%m-%d" format, strftime, timedelta arithmetic on proleptic-Gregorian
ordinals, the supported range 0001-01-01 .. 9999-12-31) are embedded as
executable functions below.
-/

/-- The Python exceptions the embedded code can raise or catch.
`str e` is Python's `str(e)` as rendered into the failure texts. -/
inductive PyError where
  | valueError (msg : String)
  | typeError (msg : String)
  | overflowError
  | fileNotFoundError (msg : String)
  | keyError (key : String)
  | apiError (msg : String)
deriving DecidableEq

/-- A single-quote character, used when a Python f-string quotes a value. -/
def squo : String := "'"

/-- Python `str(e)`. For `KeyError` Python shows the repr of the key.
`OverflowError` from date arithmetic carries CPython's message. -/
def PyError.str : PyError → String
  | .valueError m => m
  | .typeError m => m
  | .overflowError => "date value out of range"
  | .fileNotFoundError m => m
  | .keyError k => squo ++ k ++ squo
  | .apiError m => m

/-- One `TextContent(type="text", text=...)` block of a tool response. -/
structure TextContent where
  text : String
deriving DecidableEq

/-- A value of a tool-invocation argument mapping (the primitive types the
calendar server's schemas use: strings and integers). -/
inductive PyVal where
  | s (v : String)
  | i (v : Int)
deriving DecidableEq

/-- Python `str(x)` on an argument value (used where an f-string formats it). -/
def PyVal.toText : PyVal → String
  | .s v => v
  | .i n => toString n

/-! ### The proleptic Gregorian calendar, as CPython `datetime` implements it -/

/-- A calendar date (the date part of a CPython `datetime`). -/
structure Date where
  year : Nat
  month : Nat
  day : Nat
deriving DecidableEq

/-- Gregorian leap year, as `calendar.isleap` / `datetime` use it. -/
def isLeap (y : Nat) : Bool :=
  (y % 4 == 0 && y % 100 != 0) || y % 400 == 0

/-- Length of month `m` of year `y` (1-based months). -/
def daysInMonth (y m : Nat) : Nat :=
  if m = 2 then (if isLeap y then 29 else 28)
  else if m = 4 ∨ m = 6 ∨ m = 9 ∨ m = 11 then 30
  else 31

/-- Length of year `y` in days. -/
def daysInYear (y : Nat) : Nat :=
  if isLeap y then 366 else 365

/-- Days in year `y` strictly before month `m` (so 0 for January). -/
def daysBeforeMonth (y m : Nat) : Nat :=
  ((List.range (m - 1)).map (fun k => daysInMonth y (k + 1))).sum

/-- Days strictly before year `y` counting from 0001-01-01 (the standard
`365*(y-1) + leaps` formula used by `datetime.toordinal`). -/
def daysBeforeYear (y : Nat) : Nat :=
  365 * (y - 1) + (y - 1) / 4 + (y - 1) / 400 - (y - 1) / 100

/-- CPython `date.toordinal`: 0001-01-01 is ordinal 1. -/
def Date.toOrdinal (d : Date) : Nat :=
  daysBeforeYear d.year + daysBeforeMonth d.year d.month + d.day

/-- The ordinal of 9999-12-31, `datetime.max.toordinal()`. -/
def maxOrdinal : Nat := 3652059

/-- The date is one `datetime` accepts: months 1..12, day within the month,
year within MINYEAR..MAXYEAR. -/
def DateOK (y m d : Nat) : Prop :=
  1 ≤ y ∧ y ≤ 9999 ∧ 1 ≤ m ∧ m ≤ 12 ∧ 1 ≤ d ∧ d ≤ daysInMonth y m

instance (y m d : Nat) : Decidable (DateOK y m d) := by
  unfold DateOK; infer_instance

/-- Find the year containing day `k` (1-based) counted from the start of
year `y`, returning the year and the remaining 1-based day within it.
Fuel-based linear search; `ofOrdinal` supplies enough fuel for the whole
supported range. This realizes `date.fromordinal`, the inverse of
`toordinal`. -/
def findYear : Nat → Nat → Nat → Nat × Nat
  | 0, y, k => (y, k)
  | fuel + 1, y, k =>
    if daysInYear y < k then findYear fuel (y + 1) (k - daysInYear y) else (y, k)

/-- Find the month containing day `k` (1-based) counted from the start of
month `m` of year `y`, returning the month and the 1-based day in it. -/
def findMonth : Nat → Nat → Nat → Nat → Nat × Nat
  | 0, _, m, k => (m, k)
  | fuel + 1, y, m, k =>
    if m < 12 ∧ daysInMonth y m < k
    then findMonth fuel y (m + 1) (k - daysInMonth y m) else (m, k)

/-- CPython `date.fromordinal` (ordinal 1 is 0001-01-01), realized as the
inverse of `Date.toOrdinal` by linear search. 10006 years of fuel cover
every ordinal up to `maxOrdinal`. -/
def ofOrdinal (k : Nat) : Date :=
  let p := findYear 10006 1 k
  let q := findMonth 12 p.1 1 p.2
  ⟨p.1, q.1, q.2⟩

/-! ### strptime "%Y-%m-%d", strptime "%H:%M", strftime -/

/-- The numeric value of an ASCII digit character. -/
def digitVal (c : Char) : Option Nat :=
  if c.isDigit then some (c.toNat - 48) else none

/-- Parse a one-or-two digit field (the `%m`, `%d`, `%H`, `%M` directives
accept one or two digits; under whole-string matching, taking two digits
whenever the second character is a digit is equivalent to the regex CPython
compiles for the directive). Returns the value and the remaining input. -/
def parseField2 : List Char → Option (Nat × List Char)
  | c1 :: c2 :: rest =>
    match digitVal c1 with
    | none => none
    | some v1 =>
      match digitVal c2 with
      | some v2 => some (10 * v1 + v2, rest)
      | none => some (v1, c2 :: rest)
  | [c1] => (digitVal c1).map (fun v => (v, ([] : List Char)))
  | [] => none

/-- The structural part of `strptime(s, "%Y-%m-%d")`: exactly four digits,
a hyphen, one or two digits, a hyphen, one or two digits, end of input. -/
def rawParseDate (s : String) : Option (Nat × Nat × Nat) :=
  match s.toList with
  | y1 :: y2 :: y3 :: y4 :: rest =>
    match digitVal y1, digitVal y2, digitVal y3, digitVal y4 with
    | some a, some b, some c, some d =>
      match rest with
      | s1 :: rest1 =>
        if s1 = '-' then
          match parseField2 rest1 with
          | some (m, rest2) =>
            match rest2 with
            | s2 :: rest3 =>
              if s2 = '-' then
                match parseField2 rest3 with
                | some (dd, []) => some (1000 * a + 100 * b + 10 * c + d, m, dd)
                | _ => none
              else none
            | [] => none
          | none => none
        else none
      | [] => none
    | _, _, _, _ => none
  | _ => none

/-- `datetime.strptime(s, "%Y-%m-%d")`: structural match, the directive
ranges (month 1..12, day 1..31), and the constructor's validation of the
day against the month length and of the year against MINYEAR/MAXYEAR
(a four-digit year is at most 9999 in any case). A `none` result is the
`ValueError` the handlers catch. -/
def parseDate (s : String) : Option Date :=
  match rawParseDate s with
  | some (y, m, dd) =>
    if 1 ≤ y ∧ y ≤ 9999 ∧ 1 ≤ m ∧ m ≤ 12 ∧ 1 ≤ dd ∧ dd ≤ 31 ∧ dd ≤ daysInMonth y m
    then some ⟨y, m, dd⟩ else none
  | none => none

/-- `datetime.strptime(s, "%H:%M")`: hour 0..23, colon, minute 0..59,
end of input. -/
def parseTime (s : String) : Option (Nat × Nat) :=
  match parseField2 s.toList with
  | some (h, s1 :: rest1) =>
    if s1 = ':' then
      match parseField2 rest1 with
      | some (mi, []) => if h ≤ 23 ∧ mi ≤ 59 then some (h, mi) else none
      | _ => none
    else none
  | _ => none

/-- The ASCII digit character for `n % 10`. -/
def digitChar (n : Nat) : Char := Char.ofNat (48 + n % 10)

/-- Two-digit zero-padded field (`%m`, `%d`, `%H`, `%M`, `%S`). -/
def pad2 (n : Nat) : List Char := [digitChar (n / 10), digitChar n]

/-- Four-digit zero-padded year (`%Y` as the `datetime.strftime` table
documents it: 0001, 0002, ..., 9999). -/
def pad4 (n : Nat) : List Char :=
  [digitChar (n / 1000), digitChar (n / 100), digitChar (n / 10), digitChar n]

/-- `strftime("%Y-%m-%d")`. -/
def formatDate (d : Date) : String :=
  ⟨pad4 d.year ++ '-' :: (pad2 d.month ++ '-' :: pad2 d.day)⟩

/-- The date and clock fields of a `datetime.now()` instant. -/
structure DateTime where
  date : Date
  hour : Nat
  minute : Nat
  second : Nat
deriving DecidableEq

/-- `strftime("%Y-%m-%d %H:%M:%S")`. -/
def formatDateTime (t : DateTime) : String :=
  formatDate t.date ++ " " ++ (⟨pad2 t.hour⟩ : String) ++ ":"
    ++ (⟨pad2 t.minute⟩ : String) ++ ":" ++ (⟨pad2 t.second⟩ : String)

/-- `date_obj + timedelta(days=n)`: ordinal addition. Outside the supported
date range CPython raises `OverflowError` (as does constructing a timedelta
beyond its bounds), which an `except ValueError` clause does not catch. -/
def dateShift (d : Date) (n : Int) : Except PyError Date :=
  if 1 ≤ (d.toOrdinal : Int) + n ∧ (d.toOrdinal : Int) + n ≤ (maxOrdinal : Int)
  then .ok (ofOrdinal ((d.toOrdinal : Int) + n).toNat)
  else .error .overflowError

/-! ### Calendar MCP Server: the tool handlers -/

/-- `strftime("%A")`: CPython weekday names; ordinal 1 (0001-01-01) is a
Monday in the proleptic Gregorian calendar. -/
def weekdayName (ord : Nat) : String :=
  match ord % 7 with
  | 1 => "Monday"
  | 2 => "Tuesday"
  | 3 => "Wednesday"
  | 4 => "Thursday"
  | 5 => "Friday"
  | 6 => "Saturday"
  | _ => "Sunday"

/-- `strftime("%B")`: CPython month names. -/
def monthName (m : Nat) : String :=
  match m with
  | 1 => "January"
  | 2 => "February"
  | 3 => "March"
  | 4 => "April"
  | 5 => "May"
  | 6 => "June"
  | 7 => "July"
  | 8 => "August"
  | 9 => "September"
  | 10 => "October"
  | 11 => "November"
  | _ => "December"

/-- The format-error text of `get_date_info` and `add_days_to_date`. -/
def invalidDateMsg (s : String) : String :=
  "Invalid date format: " ++ s ++ ". Please use YYYY-MM-DD format."

/-- Calendar `get_date_info(date_string)`. -/
def get_date_info (dateString : String) : String :=
  match parseDate dateString with
  | some d =>
    "Date: " ++ dateString ++ ", Day: " ++ weekdayName d.toOrdinal
      ++ ", Month: " ++ monthName d.month ++ ", Day: " ++ toString d.day
      ++ ", Year: " ++ toString d.year
  | none => invalidDateMsg dateString

/-- Calendar `add_days_to_date(date_string, days)`. A `ValueError` from
parsing is caught and rendered; an `OverflowError` from the shifted date
is not caught and escapes the handler. -/
def add_days_to_date (dateString : String) (days : Int) : Except PyError String :=
  match parseDate dateString with
  | none => .ok (invalidDateMsg dateString)
  | some d =>
    match dateShift d days with
    | .ok nd => .ok (formatDate nd)
    | .error e => .error e

/-- Calendar `get_days_between_dates(start_date, end_date)`:
`(end_obj - start_obj).days`, a signed count. -/
def get_days_between_dates (startDate endDate : String) : String :=
  match parseDate startDate, parseDate endDate with
  | some a, some b =>
    "Days between " ++ startDate ++ " and " ++ endDate ++ ": "
      ++ toString ((b.toOrdinal : Int) - (a.toOrdinal : Int))
  | _, _ => "Invalid date format. Please use YYYY-MM-DD format for both dates."

/-- Calendar `schedule_reminder(title, date, time)`: validates the date then
the time, and reports one fixed message if either fails. -/
def schedule_reminder (title date time : String) : String :=
  match parseDate date with
  | none => "Invalid date or time format. Use YYYY-MM-DD for date and HH:MM for time."
  | some _ =>
    match parseTime time with
    | none => "Invalid date or time format. Use YYYY-MM-DD for date and HH:MM for time."
    | some _ =>
      "Reminder scheduled: " ++ squo ++ title ++ squo ++ " on " ++ date ++ " at " ++ time

/-- `arguments.get(key, default)` on the invocation's argument mapping. -/
def argGet (args : String → Option PyVal) (k : String) (dflt : PyVal) : PyVal :=
  (args k).getD dflt

/-- The message of the `TypeError` `strptime` raises on a non-string. -/
def strptimeTypeMsg : String := "strptime() argument 1 must be str, not int"

/-- The message of the `TypeError` `timedelta(days=...)` raises on a
non-numeric value. -/
def timedeltaTypeMsg : String := "unsupported type for timedelta days component: str"

namespace Calendar

/-- The Calendar MCP Server's `call_tool(name, arguments)` (the basic-server
variant). `now` stands for `datetime.now()` of the invocation. Missing
arguments take the `.get` defaults; a non-string where `strptime` expects a
string raises `TypeError`, which nothing in this dispatcher catches. -/
def call_tool (now : DateTime) (name : String) (args : String → Option PyVal) :
    Except PyError (List TextContent) :=
  if name = "get_current_date" then .ok [⟨formatDateTime now⟩]
  else if name = "get_today" then .ok [⟨formatDate now.date⟩]
  else if name = "get_yesterday" then
    match dateShift now.date (-1) with
    | .ok d => .ok [⟨formatDate d⟩]
    | .error e => .error e
  else if name = "get_tomorrow" then
    match dateShift now.date 1 with
    | .ok d => .ok [⟨formatDate d⟩]
    | .error e => .error e
  else if name = "get_date_info" then
    match argGet args "date_string" (.s "") with
    | .s v => .ok [⟨get_date_info v⟩]
    | .i _ => .error (.typeError strptimeTypeMsg)
  else if name = "add_days_to_date" then
    match argGet args "date_string" (.s ""), argGet args "days" (.i 0) with
    | .s v, .i n =>
      match add_days_to_date v n with
      | .ok t => .ok [⟨t⟩]
      | .error e => .error e
    | .i _, _ => .error (.typeError strptimeTypeMsg)
    | .s v, .s _ =>
      match parseDate v with
      | none => .ok [⟨invalidDateMsg v⟩]
      | some _ => .error (.typeError timedeltaTypeMsg)
  else if name = "get_days_between_dates" then
    match argGet args "start_date" (.s ""), argGet args "end_date" (.s "") with
    | .s a, .s b => .ok [⟨get_days_between_dates a b⟩]
    | .i _, _ => .error (.typeError strptimeTypeMsg)
    | .s a, .i _ =>
      match parseDate a with
      | none =>
        .ok [⟨"Invalid date format. Please use YYYY-MM-DD format for both dates."⟩]
      | some _ => .error (.typeError strptimeTypeMsg)
  else if name = "schedule_reminder" then
    match argGet args "date" (.s ""), argGet args "time" (.s "") with
    | .s dv, .s tv =>
      .ok [⟨schedule_reminder (argGet args "title" (.s "")).toText dv tv⟩]
    | .i _, _ => .error (.typeError strptimeTypeMsg)
    | .s dv, .i _ =>
      match parseDate dv with
      | none =>
        .ok [⟨"Invalid date or time format. Use YYYY-MM-DD for date and HH:MM for time."⟩]
      | some _ => .error (.typeError strptimeTypeMsg)
  else .ok [⟨"Unknown tool: " ++ name⟩]

end Calendar

/-- The Calendar server's registered tool names, in registry order. -/
def calendarToolNames : List String :=
  ["get_current_date", "get_today", "get_yesterday", "get_tomorrow",
   "get_date_info", "add_days_to_date", "get_days_between_dates",
   "schedule_reminder"]

/-! ### Dropbox MCP Server -/

/-- A Dropbox metadata entry, discriminated the way the handlers inspect it
with `isinstance` (FileMetadata, FolderMetadata, anything else). -/
inductive DbxEntry where
  | file (name pathDisplay : String) (size : Nat) (clientModified contentHash : String)
  | folder (name pathDisplay : String)
  | other (typeName : String)
deriving DecidableEq

/-- The fields of `users_get_current_account()` the handler formats. -/
structure DbxAccount where
  displayName : String
  email : String
  accountTypeTag : String
deriving DecidableEq

/-- The fields of `users_get_space_usage()` the handler formats. -/
structure DbxSpace where
  used : Nat
  allocated : Nat
deriving DecidableEq

/-- The outcomes of one invocation's external calls for the Dropbox server:
the access-token environment variable and each SDK call the handlers can
issue, each able to raise. `fmtGB` stands for the Python float formatting
`f"{bytes / (1024 ** 3):.2f}"`, which is not modelled bit-exactly. -/
structure DropboxEnv where
  accessToken : Option String
  openRead : String → Except PyError (List Nat)
  filesUpload : List Nat → String → Except PyError Unit
  filesDownload : String → Except PyError (List Nat)
  openWrite : String → List Nat → Except PyError Unit
  filesListFolder : String → Except PyError (List DbxEntry)
  filesCreateFolderV2 : String → Except PyError Unit
  filesDeleteV2 : String → Except PyError Unit
  filesGetMetadata : String → Except PyError DbxEntry
  sharingListSharedLinks : String → Except PyError (List String)
  sharingCreateSharedLinkWithSettings : String → Except PyError String
  filesSearchV2 : String → Except PyError (List DbxEntry)
  usersGetCurrentAccount : Except PyError DbxAccount
  usersGetSpaceUsage : Except PyError DbxSpace
  fmtGB : Nat → String

/-- `get_dropbox_client()`: raises `ValueError` when the token variable is
unset (message of the basic-server variant; the streamable-HTTP variant
drops the second sentence, which no claim depends on). -/
def get_dropbox_client (env : DropboxEnv) : Except PyError Unit :=
  match env.accessToken with
  | none => .error (.valueError
      "DROPBOX_ACCESS_TOKEN environment variable not set. Please set this in your Render environment variables.")
  | some _ => .ok ()

/-- Python `path.startswith("/")`: the first character is a slash. -/
def startsWithSlash (s : String) : Bool :=
  match s.toList with
  | c :: _ => c = '/'
  | [] => false

/-- The path normalization of `list_folder`: root ("/" or "") becomes the
empty string, any other path gets a leading slash if it lacks one. -/
def list_folder_norm (folderPath : String) : String :=
  if folderPath = "/" ∨ folderPath = "" then ""
  else if ¬ startsWithSlash folderPath then "/" ++ folderPath
  else folderPath

/-- The path normalization of `create_folder`, `delete_file`,
`get_file_info` and `create_shared_link`: prepend a slash if absent. -/
def ensureSlash (p : String) : String :=
  if ¬ startsWithSlash p then "/" ++ p else p

/-- Dropbox `upload_file(local_path, dropbox_path)`. The Dropbox path is
passed to `files_upload` exactly as given (no normalization). A missing
local file is reported by its own message; any other exception by the
"Upload failed:" text. -/
def upload_file (env : DropboxEnv) (localPath dropboxPath : String) : String :=
  match (do
      let _ ← get_dropbox_client env
      let content ← env.openRead localPath
      let _ ← env.filesUpload content dropboxPath
      pure ("File uploaded successfully: " ++ dropboxPath) :
      Except PyError String) with
  | .ok s => s
  | .error (.fileNotFoundError _) => "Local file not found: " ++ localPath
  | .error e => "Upload failed: " ++ e.str

/-- Dropbox `download_file(dropbox_path, local_path)`: the path is passed
to `files_download` as given. -/
def download_file (env : DropboxEnv) (dropboxPath localPath : String) : String :=
  match (do
      let _ ← get_dropbox_client env
      let content ← env.filesDownload dropboxPath
      let _ ← env.openWrite localPath content
      pure ("File downloaded successfully: " ++ localPath) :
      Except PyError String) with
  | .ok s => s
  | .error e => "Download failed: " ++ e.str

/-- Dropbox `list_folder(folder_path)`. -/
def list_folder (env : DropboxEnv) (folderPath : String) : String :=
  match (do
      let _ ← get_dropbox_client env
      env.filesListFolder (list_folder_norm folderPath) :
      Except PyError (List DbxEntry)) with
  | .error e => "List folder failed: " ++ e.str
  | .ok entries =>
    let files := entries.filterMap (fun x =>
      match x with
      | .file nm _ sz _ _ => some ("📄 " ++ nm ++ " (" ++ toString sz ++ " bytes)")
      | _ => none)
    let folders := entries.filterMap (fun x =>
      match x with
      | .folder nm _ => some ("📁 " ++ nm ++ "/")
      | _ => none)
    let fp := list_folder_norm folderPath
    let out := "Contents of " ++ (if fp = "" then "/" else fp) ++ ":\n"
    let out := if folders ≠ [] then out ++ "\nFolders:\n" ++ String.intercalate "\n" folders else out
    let out := if files ≠ [] then out ++ "\nFiles:\n" ++ String.intercalate "\n" files else out
    out

/-- Dropbox `create_folder(folder_path)`. -/
def create_folder (env : DropboxEnv) (folderPath : String) : String :=
  match (do
      let _ ← get_dropbox_client env
      env.filesCreateFolderV2 (ensureSlash folderPath) :
      Except PyError Unit) with
  | .ok _ => "Folder created successfully: " ++ ensureSlash folderPath
  | .error e => "Create folder failed: " ++ e.str

/-- Dropbox `delete_file(dropbox_path)`. -/
def delete_file (env : DropboxEnv) (dropboxPath : String) : String :=
  match (do
      let _ ← get_dropbox_client env
      env.filesDeleteV2 (ensureSlash dropboxPath) :
      Except PyError Unit) with
  | .ok _ => "Deleted successfully: " ++ ensureSlash dropboxPath
  | .error e => "Delete failed: " ++ e.str

/-- Dropbox `get_file_info(dropbox_path)`. -/
def get_file_info (env : DropboxEnv) (dropboxPath : String) : String :=
  match (do
      let _ ← get_dropbox_client env
      env.filesGetMetadata (ensureSlash dropboxPath) :
      Except PyError DbxEntry) with
  | .ok (.file nm pd sz cm ch) =>
    "File Info:\nName: " ++ nm ++ "\nPath: " ++ pd ++ "\nSize: " ++ toString sz
      ++ " bytes\nModified: " ++ cm ++ "\nContent Hash: " ++ ch
  | .ok (.folder nm pd) =>
    "Folder Info:\nName: " ++ nm ++ "\nPath: " ++ pd ++ "\nType: Folder"
  | .ok (.other ty) => "Unknown file type: " ++ ty
  | .error e => "Get file info failed: " ++ e.str

/-- Dropbox `create_shared_link(dropbox_path)`: an inner `try` looks for an
existing link (a bare `except: pass` swallows its failure), then a new link
is created. -/
def create_shared_link (env : DropboxEnv) (dropboxPath : String) : String :=
  match (do
      let _ ← get_dropbox_client env
      let existing :=
        match env.sharingListSharedLinks (ensureSlash dropboxPath) with
        | .ok (l :: _) => some l
        | _ => none
      match existing with
      | some l => pure ("Shared link: " ++ l)
      | none => do
        let url ← env.sharingCreateSharedLinkWithSettings (ensureSlash dropboxPath)
        pure ("Shared link created: " ++ url) :
      Except PyError String) with
  | .ok s => s
  | .error e => "Create shared link failed: " ++ e.str

/-- Dropbox `search_files(query)`: the query is passed as given; the first
ten matches are formatted. -/
def search_files (env : DropboxEnv) (query : String) : String :=
  match (do
      let _ ← get_dropbox_client env
      env.filesSearchV2 query :
      Except PyError (List DbxEntry)) with
  | .error e => "Search failed: " ++ e.str
  | .ok [] => "No files found matching: " ++ query
  | .ok ms =>
    let shown := (ms.take 10).filterMap (fun x =>
      match x with
      | .file _ pd sz _ _ => some ("📄 " ++ pd ++ " (" ++ toString sz ++ " bytes)")
      | .folder _ pd => some ("📁 " ++ pd ++ "/")
      | .other _ => none)
    "Search results for " ++ squo ++ query ++ squo ++ ":\n"
      ++ String.intercalate "\n" shown

/-- Dropbox `get_account_info()`. -/
def get_account_info (env : DropboxEnv) : String :=
  match (do
      let _ ← get_dropbox_client env
      let a ← env.usersGetCurrentAccount
      let sp ← env.usersGetSpaceUsage
      pure (a, sp) :
      Except PyError (DbxAccount × DbxSpace)) with
  | .ok (a, sp) =>
    "Dropbox Account Info:\nName: " ++ a.displayName ++ "\nEmail: " ++ a.email
      ++ "\nAccount Type: " ++ a.accountTypeTag
      ++ "\nStorage Used: " ++ env.fmtGB sp.used ++ " GB"
      ++ "\nStorage Total: " ++ env.fmtGB sp.allocated ++ " GB"
      ++ "\nStorage Available: " ++ env.fmtGB (sp.allocated - sp.used) ++ " GB"
  | .error e => "Get account info failed: " ++ e.str

/-- The outer `try`/`except Exception` of the Dropbox `call_tool`: a fault
escaping a branch becomes the "Tool execution failed:" text. -/
def catchToolErrors (x : Except PyError (List TextContent)) :
    Except PyError (List TextContent) :=
  match x with
  | .ok r => .ok r
  | .error e => .ok [⟨"Tool execution failed: " ++ e.str⟩]

namespace Dropbox

/-- The Dropbox MCP Server's `call_tool(name, arguments)` (basic-server
variant): dispatch on the name, with the whole body wrapped by the outer
`except Exception` clause; an unregistered name yields the "Unknown tool"
text. Arguments here are the string-typed fields the schemas declare,
missing ones defaulting to the empty string. -/
def call_tool (env : DropboxEnv) (name : String) (args : String → Option String) :
    Except PyError (List TextContent) :=
  catchToolErrors (
    if name = "upload_file" then
      .ok [⟨upload_file env ((args "local_path").getD "") ((args "dropbox_path").getD "")⟩]
    else if name = "download_file" then
      .ok [⟨download_file env ((args "dropbox_path").getD "") ((args "local_path").getD "")⟩]
    else if name = "list_folder" then
      .ok [⟨list_folder env ((args "folder_path").getD "")⟩]
    else if name = "create_folder" then
      .ok [⟨create_folder env ((args "folder_path").getD "")⟩]
    else if name = "delete_file" then
      .ok [⟨delete_file env ((args "dropbox_path").getD "")⟩]
    else if name = "get_file_info" then
      .ok [⟨get_file_info env ((args "dropbox_path").getD "")⟩]
    else if name = "create_shared_link" then
      .ok [⟨create_shared_link env ((args "dropbox_path").getD "")⟩]
    else if name = "search_files" then
      .ok [⟨search_files env ((args "query").getD "")⟩]
    else if name = "get_account_info" then
      .ok [⟨get_account_info env⟩]
    else .ok [⟨"Unknown tool: " ++ name⟩])

end Dropbox

/-- The Dropbox server's registered tool names, in registry order. -/
def dropboxToolNames : List String :=
  ["upload_file", "download_file", "list_folder", "create_folder",
   "delete_file", "get_file_info", "create_shared_link", "search_files",
   "get_account_info"]

/-! ### Instagram MCP Server: the two-step post handler -/

/-- The JSON body of a Graph API response as `post_photo` reads it:
`data['id']` (KeyError when absent) and
`data.get('error', {}).get('message', 'Unknown error')`. -/
structure IgJson where
  id : Option String
  errMsg : Option String
deriving DecidableEq

/-- One `requests.post(...)` response: the status code and the result of
`.json()` (which raises on a non-JSON body). -/
structure IgResp where
  status : Nat
  json : Except PyError IgJson

/-- The outcomes of one `post_photo` invocation's external interactions:
the two environment variables, the create call (already specialized to the
invocation's image URL and caption) and the publish call as a function of
the creation id it is given. -/
structure IgEnv where
  accessToken : Option String
  pageId : Option String
  createMedia : Except PyError IgResp
  publishMedia : String → Except PyError IgResp

/-- `get_instagram_config()`: raises `ValueError` for either missing
variable, token first. -/
def get_instagram_config (env : IgEnv) : Except PyError (String × String) :=
  match env.accessToken with
  | none => .error (.valueError "IG_ACCESS_TOKEN environment variable not set")
  | some tok =>
    match env.pageId with
    | none => .error (.valueError "IG_PAGE_ID environment variable not set")
    | some pid => .ok (tok, pid)

/-- The body of `post_photo` before its `except Exception` clause, paired
with whether the publish request was issued. Mirrors the source order:
config, create request, `media_response.json()`, status check,
`media_data['id']`, publish request, `publish_response.json()`, status
check, `publish_data['id']`. -/
def post_photo_run (env : IgEnv) : Except PyError String × Bool :=
  match get_instagram_config env with
  | .error e => (.error e, false)
  | .ok _ =>
    match env.createMedia with
    | .error e => (.error e, false)
    | .ok resp =>
      match resp.json with
      | .error e => (.error e, false)
      | .ok mediaData =>
        if resp.status ≠ 200 then
          (.ok ("Error creating media: " ++ mediaData.errMsg.getD "Unknown error"), false)
        else
          match mediaData.id with
          | none => (.error (.keyError "id"), false)
          | some mediaId =>
            match env.publishMedia mediaId with
            | .error e => (.error e, true)
            | .ok presp =>
              match presp.json with
              | .error e => (.error e, true)
              | .ok pubData =>
                if presp.status ≠ 200 then
                  (.ok ("Error publishing media: " ++ pubData.errMsg.getD "Unknown error"), true)
                else
                  match pubData.id with
                  | none => (.error (.keyError "id"), true)
                  | some postId =>
                    (.ok ("Photo posted successfully! Post ID: " ++ postId), true)

/-- Instagram `post_photo(image_url, caption)`: the body wrapped by
`except Exception as e: return f"Failed to post photo: {e}"`. Returns the
response text and whether the publish request was issued. The image URL and
caption only feed the create request, whose outcome `env.createMedia`
already fixes. -/
def post_photo (env : IgEnv) (imageUrl caption : String) : String × Bool :=
  match post_photo_run env with
  | (.ok s, b) => (s, b)
  | (.error e, b) => ("Failed to post photo: " ++ e.str, b)

/-! ### ElevenLabs MCP Server: generate_speech -/

/-- The `detail.message` field of an ElevenLabs error body, as
`error_data.get('detail', {}).get('message', 'Unknown error')` reads it. -/
structure ElJson where
  detailMsg : Option String
deriving DecidableEq

/-- One ElevenLabs HTTP response: status, raw body bytes, and the result
of `.json()`. -/
structure ElResp where
  status : Nat
  content : List Nat
  json : Except PyError ElJson

/-- The outcomes of one `generate_speech` invocation's external
interactions; `b64encode` is `base64.b64encode(...).decode('utf-8')`. -/
structure ElevenEnv where
  apiKey : Option String
  post : Except PyError ElResp
  b64encode : List Nat → String

/-- `get_elevenlabs_config()`: raises `ValueError` when the key is unset. -/
def get_elevenlabs_config (env : ElevenEnv) : Except PyError Unit :=
  match env.apiKey with
  | none => .error (.valueError "ELEVENLABS_API_KEY environment variable not set")
  | some _ => .ok ()

/-- ElevenLabs `generate_speech(text, voice_id, model_id)`: on status 200
the success template (with the base64 payload truncated to 100 characters),
otherwise the message extracted from the error body (`.json()` only
attempted on a non-empty body); every exception is caught and rendered with
the same "Failed to generate speech:" prefix. -/
def generate_speech (env : ElevenEnv) (text voiceId modelId : String) : String :=
  match (do
      let _ ← get_elevenlabs_config env
      let resp ← env.post
      if resp.status = 200 then
        pure ("Speech Generation Results:\n🎤 Text: " ++ text.take 100
          ++ (if text.length > 100 then "..." else "") ++ "\n🎭 Voice ID: " ++ voiceId
          ++ "\n🤖 Model: " ++ modelId
          ++ "\n📁 Audio Size: " ++ toString resp.content.length ++ " bytes"
          ++ "\n🎵 Format: MP3\n\n📋 Base64 Audio Data (first 100 chars):\n"
          ++ (env.b64encode resp.content).take 100
          ++ "...\n\n💡 Use this base64 data to save the audio file as MP3.")
      else do
        let ed ← (if resp.content ≠ [] then resp.json else .ok ⟨none⟩)
        pure ("Failed to generate speech: " ++ ed.detailMsg.getD "Unknown error") :
      Except PyError String) with
  | .ok s => s
  | .error e => "Failed to generate speech: " ++ e.str

/-! ### PDF Tools MCP Server: split_pdf_pages -/

/-- An abstract page of a parsed PDF. -/
structure PdfPage where
  idx : Nat
deriving DecidableEq, Inhabited

/-- The outcomes of one `split_pdf_pages` invocation's external
interactions: the download (status code and body), `PyPDF2.PdfReader` on
the saved bytes, `PdfWriter.write` of the selected pages (the bytes it
produces, or the exception it raises), base64 encoding, and the names
`tempfile.NamedTemporaryFile(delete=False)` hands out in creation order. -/
structure PdfEnv where
  download : Except PyError (Nat × List Nat)
  parsePdf : List Nat → Except PyError (List PdfPage)
  render : List PdfPage → Except PyError (List Nat)
  b64encode : List Nat → String
  tmpNames : Nat → String

/-- What one `split_pdf_pages` invocation leaves behind: the returned text,
the pages added to the `PdfWriter`, and the temporary files still on disk
when the handler returns. -/
structure SplitResult where
  text : String
  writerPages : List PdfPage
  fs : List String
deriving DecidableEq

/-- PDF Tools `split_pdf_pages(pdf_url, start_page, end_page)`. The input
temp file is unlinked by the `finally` clause on every path after its
creation; the output temp file is unlinked only on the success path, so an
exception between its creation and that unlink (for example from
`pdf_writer.write`) leaves it on disk while the outer `except Exception`
returns the failure text. -/
def split_pdf_pages (env : PdfEnv) (pdfUrl : String) (startPage endPage : Int) :
    SplitResult :=
  match env.download with
  | .error e => ⟨"Failed to split PDF: " ++ e.str, [], []⟩
  | .ok (status, content) =>
    if status ≠ 200 then ⟨"Failed to download PDF from " ++ pdfUrl, [], []⟩
    else
      let tin := env.tmpNames 0
      match env.parsePdf content with
      | .error e => ⟨"Failed to split PDF: " ++ e.str, [], [tin].erase tin⟩
      | .ok pages =>
        let totalPages := pages.length
        if startPage < 1 ∨ endPage > (totalPages : Int) ∨ startPage > endPage then
          ⟨"Invalid page range: " ++ toString startPage ++ "-" ++ toString endPage
            ++ ". PDF has " ++ toString totalPages ++ " pages.", [], [tin].erase tin⟩
        else
          let writer := (List.range' (startPage - 1).toNat (endPage - startPage + 1).toNat).map
            (fun i => pages.getD i default)
          let tout := env.tmpNames 1
          match env.render writer with
          | .error e =>
            ⟨"Failed to split PDF: " ++ e.str, writer, ([tin, tout].erase tin)⟩
          | .ok bytes =>
            let base64Data := env.b64encode bytes
            let pagesExtracted := endPage - startPage + 1
            ⟨"PDF Split Results:\n📄 Source: " ++ pdfUrl
              ++ "\n📊 Original Pages: " ++ toString totalPages
              ++ "\n✂️  Extracted Pages: " ++ toString startPage ++ "-" ++ toString endPage
              ++ " (" ++ toString pagesExtracted ++ " pages)"
              ++ "\n📁 Output Size: " ++ toString bytes.length ++ " bytes"
              ++ "\n\n📋 Base64 Data (first 100 chars):\n" ++ base64Data.take 100
              ++ "...\n\n💡 Use this base64 data to save the split PDF file.",
             writer, (([tin, tout].erase tout).erase tin)⟩

/-! ### Concrete environments and inputs used by the verification -/

/-- A fixed `datetime.now()` instant for closed statements. -/
def nowExample : DateTime := ⟨⟨2024, 1, 15⟩, 12, 30, 45⟩

/-- A Dropbox environment whose every SDK call raises an `ApiError` whose
message echoes the path it received: the returned failure text then
exhibits the exact path the handler passed to the vendor call. -/
def dropboxCaptureEnv : DropboxEnv where
  accessToken := some "token"
  openRead := fun _ => .ok []
  filesUpload := fun _ p => .error (.apiError p)
  filesDownload := fun p => .error (.apiError p)
  openWrite := fun _ _ => .ok ()
  filesListFolder := fun p => .error (.apiError p)
  filesCreateFolderV2 := fun p => .error (.apiError p)
  filesDeleteV2 := fun p => .error (.apiError p)
  filesGetMetadata := fun p => .error (.apiError p)
  sharingListSharedLinks := fun p => .error (.apiError p)
  sharingCreateSharedLinkWithSettings := fun p => .error (.apiError p)
  filesSearchV2 := fun q => .error (.apiError q)
  usersGetCurrentAccount := .error (.apiError "account")
  usersGetSpaceUsage := .error (.apiError "space")
  fmtGB := fun _ => ""

/-- An Instagram environment where the create request returns HTTP 400
with a vendor error message; the publish request would succeed if issued. -/
def igCreateFailEnv : IgEnv where
  accessToken := some "token"
  pageId := some "page"
  createMedia := .ok ⟨400, .ok ⟨none, some "bad image"⟩⟩
  publishMedia := fun _ => .ok ⟨200, .ok ⟨some "post1", none⟩⟩

/-- An Instagram environment where the create request itself raises. -/
def igRaiseEnv : IgEnv where
  accessToken := some "token"
  pageId := some "page"
  createMedia := .error (.apiError "boom")
  publishMedia := fun _ => .ok ⟨200, .ok ⟨some "post1", none⟩⟩

/-- An ElevenLabs environment where the TTS request raises. -/
def elevenRaiseEnv : ElevenEnv where
  apiKey := some "key"
  post := .error (.apiError "boom")
  b64encode := fun _ => ""

/-- A PDF environment: a three-page document downloads and parses fine and
every later step succeeds. -/
def pdfOkEnv : PdfEnv where
  download := .ok (200, [1, 2, 3])
  parsePdf := fun _ => .ok [⟨0⟩, ⟨1⟩, ⟨2⟩]
  render := fun _ => .ok [9, 9]
  b64encode := fun _ => "QUJD"
  tmpNames := fun n => "tmp" ++ toString n

/-- A PDF environment identical to `pdfOkEnv` except that writing the
split output (`pdf_writer.write`) raises. -/
def pdfLeakEnv : PdfEnv where
  download := .ok (200, [1, 2, 3])
  parsePdf := fun _ => .ok [⟨0⟩, ⟨1⟩, ⟨2⟩]
  render := fun _ => .error (.apiError "disk full")
  b64encode := fun _ => "QUJD"
  tmpNames := fun n => "tmp" ++ toString n

/-- An argument mapping with no entries. -/
def argsEmpty : String → Option PyVal := fun _ => none

/-- An argument mapping holding only a valid date string. -/
def argsDateOnly : String → Option PyVal :=
  fun k => if k = "date_string" then some (.s "2024-01-02") else none

/-! ### Facts about the embedded calendar arithmetic -/

lemma daysInYear_ge (y : Nat) : 365 ≤ daysInYear y := by
  unfold daysInYear; split <;> omega

lemma daysInMonth_le_31 (y m : Nat) : daysInMonth y m ≤ 31 := by
  unfold daysInMonth; split_ifs <;> omega

lemma daysInMonth_pos (y m : Nat) : 1 ≤ daysInMonth y m := by
  unfold daysInMonth; split_ifs <;> omega

lemma isLeap_iff (y : Nat) :
    isLeap y = true ↔ (y % 4 = 0 ∧ y % 100 ≠ 0) ∨ y % 400 = 0 := by
  simp [isLeap]

lemma daysBeforeYear_one : daysBeforeYear 1 = 0 := rfl

set_option maxHeartbeats 1000000 in
lemma daysBeforeYear_succ (y : Nat) (hy : 1 ≤ y) :
    daysBeforeYear (y + 1) = daysBeforeYear y + daysInYear y := by
  obtain ⟨z, rfl⟩ : ∃ z, y = z + 1 := ⟨y - 1, by omega⟩
  have hiff := isLeap_iff (z + 1)
  cases hL : isLeap (z + 1) with
  | false =>
    rw [hL] at hiff
    simp only [Bool.false_eq_true, false_iff] at hiff
    push_neg at hiff
    obtain ⟨hA, hB⟩ := hiff
    have hdy : daysInYear (z + 1) = 365 := by simp [daysInYear, hL]
    unfold daysBeforeYear
    rw [hdy]
    by_cases h4 : (z + 1) % 4 = 0
    · have h100 := hA h4
      omega
    · omega
  | true =>
    rw [hL] at hiff
    simp only [true_iff] at hiff
    have hdy : daysInYear (z + 1) = 366 := by simp [daysInYear, hL]
    unfold daysBeforeYear
    rw [hdy]
    rcases hiff with ⟨h4, h100⟩ | h400
    · omega
    · omega

lemma daysBeforeYear_mono {a b : Nat} (ha : 1 ≤ a) (hab : a ≤ b) :
    daysBeforeYear a ≤ daysBeforeYear b := by
  induction b with
  | zero => exact absurd hab (by omega)
  | succ n ih =>
    by_cases h : a ≤ n
    · have h1 : 1 ≤ n := le_trans ha h
      calc daysBeforeYear a ≤ daysBeforeYear n := ih h
        _ ≤ daysBeforeYear (n + 1) := by rw [daysBeforeYear_succ n h1]; omega
    · have : a = n + 1 := by omega
      subst this; exact le_refl _

lemma daysBeforeYear_10000 : daysBeforeYear 10000 = maxOrdinal := by
  unfold daysBeforeYear maxOrdinal; norm_num

lemma daysBeforeMonth_one (y : Nat) : daysBeforeMonth y 1 = 0 := rfl

lemma daysBeforeMonth_succ (y m : Nat) (hm : 1 ≤ m) :
    daysBeforeMonth y (m + 1) = daysBeforeMonth y m + daysInMonth y m := by
  obtain ⟨k, rfl⟩ : ∃ k, m = k + 1 := ⟨m - 1, by omega⟩
  unfold daysBeforeMonth
  simp [Nat.add_sub_cancel, List.range_succ]

lemma daysBeforeMonth_13 (y : Nat) : daysBeforeMonth y 13 = daysInYear y := by
  have hr : List.range 12 = [0, 1, 2, 3, 4, 5, 6, 7, 8, 9, 10, 11] := by decide
  cases hL : isLeap y <;>
    simp [daysBeforeMonth, hr, daysInMonth, daysInYear, hL]

lemma daysBeforeMonth_mono (y : Nat) :
    ∀ (b : Nat) {a : Nat}, a ≤ b → daysBeforeMonth y a ≤ daysBeforeMonth y b := by
  intro b
  induction b with
  | zero =>
    intro a hab
    have : a = 0 := by omega
    subst this; exact le_refl _
  | succ n ihb =>
    intro a hab
    by_cases h : a ≤ n
    · have step : daysBeforeMonth y n ≤ daysBeforeMonth y (n + 1) := by
        rcases Nat.eq_zero_or_pos n with hn | hn
        · subst hn
          have e0 : daysBeforeMonth y 0 = 0 := rfl
          have e1 : daysBeforeMonth y 1 = 0 := rfl
          omega
        · rw [daysBeforeMonth_succ y n hn]; omega
      exact le_trans (ihb h) step
    · have : a = n + 1 := by omega
      subst this; exact le_refl _

lemma findYear_spec : ∀ (fuel y k : Nat), 1 ≤ y → 1 ≤ k → k ≤ 365 * fuel + 365 →
    daysBeforeYear (findYear fuel y k).1 + (findYear fuel y k).2 = daysBeforeYear y + k
    ∧ 1 ≤ (findYear fuel y k).2
    ∧ (findYear fuel y k).2 ≤ daysInYear (findYear fuel y k).1
    ∧ y ≤ (findYear fuel y k).1 := by
  intro fuel
  induction fuel with
  | zero =>
    intro y k hy hk hb
    have := daysInYear_ge y
    simp only [findYear]
    exact ⟨by trivial, hk, by omega, le_refl y⟩
  | succ n ih =>
    intro y k hy hk hb
    have hdy := daysInYear_ge y
    by_cases h : daysInYear y < k
    · have h1 : 1 ≤ k - daysInYear y := by omega
      have h2 : k - daysInYear y ≤ 365 * n + 365 := by omega
      have hrec := ih (y + 1) (k - daysInYear y) (by omega) h1 h2
      simp only [findYear, if_pos h]
      rcases hrec with ⟨e1, e2, e3, e4⟩
      refine ⟨?_, e2, e3, by omega⟩
      rw [e1, daysBeforeYear_succ y hy]; omega
    · simp only [findYear, if_neg h]
      exact ⟨by trivial, hk, by omega, le_refl y⟩

lemma findMonth_spec : ∀ (fuel y m k : Nat), 1 ≤ m → m ≤ 12 → 1 ≤ k →
    daysBeforeMonth y m + k ≤ daysInYear y → 12 - m ≤ fuel →
    daysBeforeMonth y (findMonth fuel y m k).1 + (findMonth fuel y m k).2
      = daysBeforeMonth y m + k
    ∧ 1 ≤ (findMonth fuel y m k).2
    ∧ (findMonth fuel y m k).2 ≤ daysInMonth y (findMonth fuel y m k).1
    ∧ 1 ≤ (findMonth fuel y m k).1 ∧ (findMonth fuel y m k).1 ≤ 12 := by
  intro fuel
  induction fuel with
  | zero =>
    intro y m k hm1 hm2 hk hbound hfuel
    have hm : m = 12 := by omega
    subst hm
    have h13 := daysBeforeMonth_13 y
    have hs := daysBeforeMonth_succ y 12 (by omega)
    simp only [show (12 : Nat) + 1 = 13 from rfl] at hs
    simp only [findMonth]
    exact ⟨by trivial, hk, by omega, by omega, by omega⟩
  | succ n ih =>
    intro y m k hm1 hm2 hk hbound hfuel
    by_cases h : m < 12 ∧ daysInMonth y m < k
    · have hs := daysBeforeMonth_succ y m hm1
      have hrec := ih y (m + 1) (k - daysInMonth y m) (by omega) (by omega)
        (by omega) (by omega) (by omega)
      simp only [findMonth, if_pos h]
      rcases hrec with ⟨e1, e2, e3, e4, e5⟩
      refine ⟨?_, e2, e3, by omega, e5⟩
      rw [e1, hs]; omega
    · simp only [findMonth, if_neg h]
      by_cases hm12 : m < 12
      · have hk2 : k ≤ daysInMonth y m := by
          rcases Nat.lt_or_ge (daysInMonth y m) k with hlt | hge
          · exact absurd ⟨hm12, hlt⟩ h
          · exact hge
        exact ⟨by trivial, hk, hk2, by omega, by omega⟩
      · have hm' : m = 12 := by omega
        subst hm'
        have h13 := daysBeforeMonth_13 y
        have hs := daysBeforeMonth_succ y 12 (by omega)
        simp only [show (12 : Nat) + 1 = 13 from rfl] at hs
        exact ⟨by trivial, hk, by omega, by omega, by omega⟩

/-- The dates `ofOrdinal` produces on the supported range are valid and
`toOrdinal` is their inverse. -/
lemma ofOrdinal_spec (k : Nat) (h1 : 1 ≤ k) (h2 : k ≤ maxOrdinal) :
    (ofOrdinal k).toOrdinal = k
    ∧ DateOK (ofOrdinal k).year (ofOrdinal k).month (ofOrdinal k).day := by
  have hY := findYear_spec 10006 1 k (le_refl 1) h1
    (by unfold maxOrdinal at h2; omega)
  rcases hY with ⟨e1, e2, e3, e4⟩
  rw [daysBeforeYear_one] at e1
  have hy9999 : (findYear 10006 1 k).1 ≤ 9999 := by
    by_contra hgt
    push_neg at hgt
    have hmono := daysBeforeYear_mono (a := 10000) (b := (findYear 10006 1 k).1)
      (by omega) (by omega)
    have h10000 := daysBeforeYear_10000
    unfold maxOrdinal at h10000 h2
    omega
  have hM := findMonth_spec 12 (findYear 10006 1 k).1 1 (findYear 10006 1 k).2
    (le_refl 1) (by omega) e2
    (by rw [daysBeforeMonth_one]; omega) (by omega)
  rcases hM with ⟨f1, f2, f3, f4, f5⟩
  rw [daysBeforeMonth_one] at f1
  have hdef : ofOrdinal k = ⟨(findYear 10006 1 k).1,
      (findMonth 12 (findYear 10006 1 k).1 1 (findYear 10006 1 k).2).1,
      (findMonth 12 (findYear 10006 1 k).1 1 (findYear 10006 1 k).2).2⟩ := rfl
  rw [hdef]
  constructor
  · show daysBeforeYear (findYear 10006 1 k).1
      + daysBeforeMonth (findYear 10006 1 k).1
          (findMonth 12 (findYear 10006 1 k).1 1 (findYear 10006 1 k).2).1
      + (findMonth 12 (findYear 10006 1 k).1 1 (findYear 10006 1 k).2).2 = k
    omega
  · show DateOK (findYear 10006 1 k).1
      (findMonth 12 (findYear 10006 1 k).1 1 (findYear 10006 1 k).2).1
      (findMonth 12 (findYear 10006 1 k).1 1 (findYear 10006 1 k).2).2
    exact ⟨e4, hy9999, f4, f5, f2, f3⟩

/-- On a valid date, `toOrdinal` lands in the supported ordinal range. -/
lemma toOrdinal_bounds (d : Date) (h : DateOK d.year d.month d.day) :
    1 ≤ d.toOrdinal ∧ d.toOrdinal ≤ maxOrdinal := by
  obtain ⟨hy1, hy2, hm1, hm2, hd1, hd2⟩ := h
  unfold Date.toOrdinal
  constructor
  · omega
  · have hmono : daysBeforeMonth d.year d.month + d.day ≤ daysInYear d.year := by
      have hsucc := daysBeforeMonth_succ d.year d.month hm1
      have hm13 := daysBeforeMonth_mono d.year 13 (a := d.month + 1) (by omega)
      have h13 := daysBeforeMonth_13 d.year
      omega
    have hy : daysBeforeYear d.year + daysInYear d.year ≤ maxOrdinal := by
      rw [← daysBeforeYear_succ d.year hy1, ← daysBeforeYear_10000]
      exact daysBeforeYear_mono (by omega) (by omega)
    omega

/-! ### Parsing and formatting round trip -/

lemma digitVal_digitChar (n : Nat) : digitVal (digitChar n) = some (n % 10) := by
  have h : n % 10 < 10 := Nat.mod_lt _ (by norm_num)
  unfold digitChar
  generalize n % 10 = r at h ⊢
  interval_cases r <;> decide

lemma parse_format_roundtrip (d : Date) (h : DateOK d.year d.month d.day) :
    parseDate (formatDate d) = some d := by
  obtain ⟨hy1, hy2, hm1, hm2, hd1, hd2⟩ := h
  have hd31 : d.day ≤ 31 := le_trans hd2 (daysInMonth_le_31 _ _)
  have ey : 1000 * (d.year / 1000 % 10) + 100 * (d.year / 100 % 10)
      + 10 * (d.year / 10 % 10) + d.year % 10 = d.year := by omega
  have em : 10 * (d.month / 10 % 10) + d.month % 10 = d.month := by omega
  have ed : 10 * (d.day / 10 % 10) + d.day % 10 = d.day := by omega
  unfold formatDate parseDate rawParseDate parseField2 pad4 pad2
  simp only [String.toList, List.cons_append, List.nil_append, digitVal_digitChar,
    List.append_nil]
  simp only [ey, em, ed, if_true]
  rw [if_pos ⟨hy1, hy2, hm1, hm2, hd1, hd31, hd2⟩]

/-! ### The claims -/

/-- C2 (amended): for every date string that parses under the fixed
YYYY-MM-DD format and every integer `n` such that the shifted date still
lies in the `datetime`-supported range (ordinals 1..3652059, that is
0001-01-01 through 9999-12-31), `add_days_to_date` returns a date string
and `get_days_between_dates` on the original and the result reports
exactly `n` days. Outside that range the addition raises an uncaught
`OverflowError` instead of returning a string (see the counterexample). -/
theorem c2_round_trip (s : String) (d : Date) (n : Int)
    (hp : parseDate s = some d)
    (h1 : 1 ≤ (d.toOrdinal : Int) + n)
    (h2 : (d.toOrdinal : Int) + n ≤ (maxOrdinal : Int)) :
    ∃ t, add_days_to_date s n = .ok t ∧
      get_days_between_dates s t
        = "Days between " ++ s ++ " and " ++ t ++ ": " ++ toString n := by
  have hM : (maxOrdinal : Nat) = 3652059 := rfl
  have hk1 : 1 ≤ ((d.toOrdinal : Int) + n).toNat := by omega
  have hk2 : ((d.toOrdinal : Int) + n).toNat ≤ maxOrdinal := by omega
  obtain ⟨hinv, hok⟩ := ofOrdinal_spec _ hk1 hk2
  refine ⟨formatDate (ofOrdinal ((d.toOrdinal : Int) + n).toNat), ?_, ?_⟩
  · unfold add_days_to_date
    simp only [hp]
    unfold dateShift
    rw [if_pos ⟨h1, h2⟩]
  · unfold get_days_between_dates
    simp only [hp, parse_format_roundtrip _ hok]
    have hval : ((ofOrdinal ((d.toOrdinal : Int) + n).toNat).toOrdinal : Int)
        - (d.toOrdinal : Int) = n := by
      rw [hinv]; omega
    rw [hval]

/-- C2 witness: 2024-02-28 plus 2 days round-trips with count 2. -/
theorem c2_round_trip_witness :
    parseDate "2024-02-28" = some ⟨2024, 2, 28⟩
    ∧ 1 ≤ (((⟨2024, 2, 28⟩ : Date).toOrdinal : Int) + 2)
    ∧ (((⟨2024, 2, 28⟩ : Date).toOrdinal : Int) + 2) ≤ (maxOrdinal : Int)
    ∧ ∃ t, add_days_to_date "2024-02-28" 2 = .ok t ∧
        get_days_between_dates "2024-02-28" t
          = "Days between " ++ "2024-02-28" ++ " and " ++ t ++ ": "
            ++ toString (2 : Int) :=
  ⟨by decide, by decide, by decide,
   c2_round_trip "2024-02-28" ⟨2024, 2, 28⟩ 2 (by decide) (by decide) (by decide)⟩

/-- C2 counterexample: at the boundary date 9999-12-31 with n = 1 the
handler does not return a date string; the `OverflowError` raised by the
date addition escapes (only `ValueError` is caught), so the claim fails
as stated for arbitrary integers. -/
theorem c2_counterexample :
    add_days_to_date "9999-12-31" 1 = .error .overflowError := rfl

/-- C10: `get_days_between_dates` reports the signed difference, end date
minus start date: the reported count is `toOrdinal end - toOrdinal start`
as a signed integer, swapping the arguments reports the negated value, and
the count is negative exactly when the end date precedes the start date. -/
theorem c10_days_between_signed (sa sb : String) (a b : Date)
    (ha : parseDate sa = some a) (hb : parseDate sb = some b) :
    get_days_between_dates sa sb
      = "Days between " ++ sa ++ " and " ++ sb ++ ": "
        ++ toString ((b.toOrdinal : Int) - (a.toOrdinal : Int))
    ∧ get_days_between_dates sb sa
      = "Days between " ++ sb ++ " and " ++ sa ++ ": "
        ++ toString ((a.toOrdinal : Int) - (b.toOrdinal : Int))
    ∧ ((b.toOrdinal : Int) - (a.toOrdinal : Int) < 0 ↔ b.toOrdinal < a.toOrdinal)
    ∧ (a.toOrdinal : Int) - (b.toOrdinal : Int)
        = -((b.toOrdinal : Int) - (a.toOrdinal : Int)) := by
  refine ⟨?_, ?_, by omega, by ring⟩
  · unfold get_days_between_dates
    simp only [ha, hb]
  · unfold get_days_between_dates
    simp only [ha, hb]

/-- C10 witness: between 2024-01-10 and 2024-01-07 the handler reports
-3, and the swap reports 3. -/
theorem c10_days_between_signed_witness :
    parseDate "2024-01-10" = some ⟨2024, 1, 10⟩
    ∧ parseDate "2024-01-07" = some ⟨2024, 1, 7⟩
    ∧ get_days_between_dates "2024-01-10" "2024-01-07"
        = "Days between " ++ "2024-01-10" ++ " and " ++ "2024-01-07" ++ ": "
          ++ toString (((⟨2024, 1, 7⟩ : Date).toOrdinal : Int)
              - ((⟨2024, 1, 10⟩ : Date).toOrdinal : Int)) :=
  ⟨by decide, by decide,
   (c10_days_between_signed "2024-01-10" "2024-01-07" ⟨2024, 1, 10⟩ ⟨2024, 1, 7⟩
     (by decide) (by decide)).1⟩

/-- C4: on any input that `strptime("%Y-%m-%d")` rejects, each
date-parsing handler returns its format-error text and raises nothing:
`get_date_info`, `add_days_to_date` (for every day count),
`get_days_between_dates` (the bad string in either position) and
`schedule_reminder` (for every title and time). -/
theorem c4_invalid_date_format_rejected (s : String) (hs : parseDate s = none) :
    get_date_info s = invalidDateMsg s
    ∧ (∀ n : Int, add_days_to_date s n = .ok (invalidDateMsg s))
    ∧ (∀ e, get_days_between_dates s e
        = "Invalid date format. Please use YYYY-MM-DD format for both dates.")
    ∧ (∀ a, get_days_between_dates a s
        = "Invalid date format. Please use YYYY-MM-DD format for both dates.")
    ∧ (∀ title time, schedule_reminder title s time
        = "Invalid date or time format. Use YYYY-MM-DD for date and HH:MM for time.") := by
  refine ⟨?_, fun n => ?_, fun e => ?_, fun a => ?_, fun t tm => ?_⟩
  · unfold get_date_info
    simp only [hs]
  · unfold add_days_to_date
    simp only [hs]
  · unfold get_days_between_dates
    simp only [hs]
  · unfold get_days_between_dates
    cases hpa : parseDate a <;> simp only [hpa, hs]
  · unfold schedule_reminder
    simp only [hs]

/-- C4 witness: the input "13/40/2024" is rejected by every date-parsing
handler with the format-error texts. -/
theorem c4_invalid_date_format_rejected_witness :
    parseDate "13/40/2024" = none
    ∧ get_date_info "13/40/2024" = invalidDateMsg "13/40/2024" :=
  ⟨by decide, (c4_invalid_date_format_rejected "13/40/2024" (by decide)).1⟩

/-- C1: for every operation name outside the registered tool lists, both
the Calendar and the Dropbox dispatchers return a normal text response
"Unknown tool: name" (no exception: the result is an `.ok`). -/
theorem c1_unknown_tool (name : String)
    (hc : name ∉ calendarToolNames) (hd : name ∉ dropboxToolNames) :
    (∀ now args, Calendar.call_tool now name args
        = .ok [⟨"Unknown tool: " ++ name⟩])
    ∧ (∀ env args, Dropbox.call_tool env name args
        = .ok [⟨"Unknown tool: " ++ name⟩]) := by
  simp only [calendarToolNames, List.mem_cons, List.mem_singleton, not_or] at hc
  simp only [dropboxToolNames, List.mem_cons, List.mem_singleton, not_or] at hd
  obtain ⟨c1, c2, c3, c4, c5, c6, c7, c8⟩ := hc
  obtain ⟨d1, d2, d3, d4, d5, d6, d7, d8, d9⟩ := hd
  constructor
  · intro now args
    unfold Calendar.call_tool
    rw [if_neg c1, if_neg c2, if_neg c3, if_neg c4, if_neg c5, if_neg c6,
      if_neg c7, if_neg c8.1]
  · intro env args
    unfold Dropbox.call_tool catchToolErrors
    rw [if_neg d1, if_neg d2, if_neg d3, if_neg d4, if_neg d5, if_neg d6,
      if_neg d7, if_neg d8, if_neg d9.1]

/-- C1 witness: a concrete unregistered name gets the "Unknown tool"
response from the Calendar dispatcher. -/
theorem c1_unknown_tool_witness :
    "definitely_not_a_tool" ∉ calendarToolNames
    ∧ "definitely_not_a_tool" ∉ dropboxToolNames
    ∧ Calendar.call_tool nowExample "definitely_not_a_tool" argsEmpty
        = .ok [⟨"Unknown tool: " ++ "definitely_not_a_tool"⟩] :=
  ⟨by decide, by decide,
   (c1_unknown_tool "definitely_not_a_tool" (by decide) (by decide)).1
     nowExample argsEmpty⟩

/-- C8: the Calendar dispatcher does not reject an invocation whose
argument mapping omits a required field: a missing string defaults to ""
and the handler runs, reporting its format error inline; a missing
integer (`days`) defaults to 0 and the invocation behaves exactly as the
handler applied to 0. -/
theorem c8_missing_argument_defaults :
    (∀ now args, args "date_string" = none →
        Calendar.call_tool now "get_date_info" args = .ok [⟨get_date_info ""⟩])
    ∧ get_date_info "" = "Invalid date format: . Please use YYYY-MM-DD format."
    ∧ (∀ now args s, args "date_string" = some (.s s) → args "days" = none →
        Calendar.call_tool now "add_days_to_date" args
          = (add_days_to_date s 0).map (fun t => [(⟨t⟩ : TextContent)])) := by
  refine ⟨?_, by decide, ?_⟩
  · intro now args h
    unfold Calendar.call_tool
    rw [if_neg (by decide), if_neg (by decide), if_neg (by decide),
      if_neg (by decide), if_pos rfl]
    unfold argGet
    rw [h]
    rfl
  · intro now args s h1 h2
    unfold Calendar.call_tool
    rw [if_neg (by decide), if_neg (by decide), if_neg (by decide),
      if_neg (by decide), if_neg (by decide), if_pos rfl]
    unfold argGet
    rw [h1, h2]
    show (match add_days_to_date s 0 with
      | .ok t => Except.ok [(⟨t⟩ : TextContent)]
      | .error e => .error e) = _
    cases hads : add_days_to_date s 0 <;> simp [Except.map, hads]

/-- C8 witness: with an empty argument mapping `get_date_info` runs on
the empty default and reports the format error; with only the date given,
`add_days_to_date` runs with days = 0. -/
theorem c8_missing_argument_defaults_witness :
    argsEmpty "date_string" = none
    ∧ Calendar.call_tool nowExample "get_date_info" argsEmpty
        = .ok [⟨get_date_info ""⟩]
    ∧ argsDateOnly "date_string" = some (.s "2024-01-02")
    ∧ argsDateOnly "days" = none
    ∧ Calendar.call_tool nowExample "add_days_to_date" argsDateOnly
        = (add_days_to_date "2024-01-02" 0).map (fun t => [(⟨t⟩ : TextContent)]) :=
  ⟨rfl,
   (c8_missing_argument_defaults.1 nowExample argsEmpty rfl),
   by decide, by decide,
   (c8_missing_argument_defaults.2.2 nowExample argsDateOnly "2024-01-02"
     (by decide) (by decide))⟩

/-- The publish flag of `post_photo` is the flag of its body. -/
lemma post_photo_flag (env : IgEnv) (iu cap : String) :
    (post_photo env iu cap).2 = (post_photo_run env).2 := by
  unfold post_photo
  rcases post_photo_run env with ⟨r, b⟩
  cases r <;> rfl

/-- If the body of `post_photo` reaches the publish request, the create
request returned status 200 with a JSON body holding an id. -/
lemma post_photo_run_publish (env : IgEnv) :
    (post_photo_run env).2 = true →
    ∃ resp j mid, env.createMedia = .ok resp ∧ resp.json = .ok j
      ∧ resp.status = 200 ∧ j.id = some mid := by
  intro h
  unfold post_photo_run at h
  cases hcfg : get_instagram_config env with
  | error e => rw [hcfg] at h; simp at h
  | ok p =>
    rw [hcfg] at h
    simp only [] at h
    cases hcm : env.createMedia with
    | error e => rw [hcm] at h; simp at h
    | ok resp =>
      rw [hcm] at h
      simp only [] at h
      cases hj : resp.json with
      | error e => rw [hj] at h; simp at h
      | ok j =>
        rw [hj] at h
        simp only [] at h
        by_cases hst : resp.status = 200
        · cases hid : j.id with
          | none =>
            rw [if_neg (by simp [hst]), hid] at h
            simp at h
          | some mid => exact ⟨resp, j, mid, rfl, hj, hst, hid⟩
        · rw [if_pos hst] at h
          simp at h

/-- A create-stage failure text never equals a publish-stage failure
text, whatever the embedded vendor messages. -/
lemma create_publish_msgs_distinct (a b : String) :
    "Error creating media: " ++ a ≠ "Error publishing media: " ++ b := by
  intro h
  have h2 : ("Error creating media: " ++ a).data.take 9
      = ("Error publishing media: " ++ b).data.take 9 := by rw [h]
  rw [String.data_append, String.data_append] at h2
  rw [List.take_append_of_le_length (by decide),
    List.take_append_of_le_length (by decide)] at h2
  exact absurd h2 (by decide)

/-- C3: the Instagram two-step post handler (i) never issues the publish
request unless the create request returned an `.ok` response with status
200 whose JSON body held a usable id, and (ii) on a create-stage failure
(non-200 status) short-circuits with the create-stage text and the publish
request not attempted, that text being (iii) distinct from every
publish-stage failure text. -/
theorem c3_create_before_publish :
    (∀ env iu cap, (post_photo env iu cap).2 = true →
      ∃ resp j mid, env.createMedia = .ok resp ∧ resp.json = .ok j
        ∧ resp.status = 200 ∧ j.id = some mid)
    ∧ (∀ env iu cap tok pid resp j,
        env.accessToken = some tok → env.pageId = some pid →
        env.createMedia = .ok resp → resp.json = .ok j → resp.status ≠ 200 →
        post_photo env iu cap
          = ("Error creating media: " ++ j.errMsg.getD "Unknown error", false))
    ∧ (∀ a b : String,
        "Error creating media: " ++ a ≠ "Error publishing media: " ++ b) := by
  refine ⟨?_, ?_, create_publish_msgs_distinct⟩
  · intro env iu cap h
    rw [post_photo_flag] at h
    exact post_photo_run_publish env h
  · intro env iu cap tok pid resp j hA hP hcm hj hst
    have hcfg : get_instagram_config env = .ok (tok, pid) := by
      unfold get_instagram_config
      rw [hA, hP]
    unfold post_photo post_photo_run
    rw [hcfg]
    simp only []
    rw [hcm]
    simp only []
    rw [hj]
    simp only []
    rw [if_pos hst]

/-- C3 witness: a simulated create failure (HTTP 400) yields the
create-stage text with the publish request not attempted. -/
theorem c3_create_before_publish_witness :
    igCreateFailEnv.accessToken = some "token"
    ∧ igCreateFailEnv.pageId = some "page"
    ∧ igCreateFailEnv.createMedia = .ok ⟨400, .ok ⟨none, some "bad image"⟩⟩
    ∧ (400 : Nat) ≠ 200
    ∧ post_photo igCreateFailEnv "http://x/a.jpg" "caption"
        = ("Error creating media: " ++ (some "bad image").getD "Unknown error", false) :=
  ⟨rfl, rfl, rfl, by decide,
   c3_create_before_publish.2.1 igCreateFailEnv "http://x/a.jpg" "caption"
     "token" "page" ⟨400, .ok ⟨none, some "bad image"⟩⟩ ⟨none, some "bad image"⟩
     rfl rfl rfl rfl (by decide)⟩

/-- The outer catch of the Dropbox dispatcher never lets a fault out. -/
lemma catchToolErrors_ok (x : Except PyError (List TextContent)) :
    ∃ r, catchToolErrors x = .ok r := by
  cases x <;> exact ⟨_, rfl⟩

/-- C7 counterexample: the calendar `add_days_to_date` handler catches
only `ValueError`; the `OverflowError` raised by an out-of-range date
addition propagates out of the handler as a fault instead of being
rendered as failure text. -/
theorem c7_counterexample :
    add_days_to_date "2024-01-10" 999999999999 = .error .overflowError := rfl

/-- C7 (amended): for the Dropbox dispatcher every invocation returns a
normal response (its outer `except Exception` converts any fault to text),
and the Instagram and ElevenLabs handlers convert an exception raised by
the external call into text made of their fixed failure prefix and the
exception's message; the Calendar date handlers, however, catch only
`ValueError`, so an `OverflowError` from date arithmetic propagates (see
the counterexample). -/
theorem c7_exceptions_rendered_at_boundary :
    (∀ env name args, ∃ r, Dropbox.call_tool env name args = .ok r)
    ∧ (∀ env iu cap tok pid msg,
        env.accessToken = some tok → env.pageId = some pid →
        env.createMedia = .error (.apiError msg) →
        post_photo env iu cap = ("Failed to post photo: " ++ msg, false))
    ∧ (∀ env msg text v m, env.apiKey.isSome →
        env.post = .error (.apiError msg) →
        generate_speech env text v m = "Failed to generate speech: " ++ msg) := by
  refine ⟨?_, ?_, ?_⟩
  · intro env name args
    unfold Dropbox.call_tool
    exact catchToolErrors_ok _
  · intro env iu cap tok pid msg hA hP hcm
    have hcfg : get_instagram_config env = .ok (tok, pid) := by
      unfold get_instagram_config
      rw [hA, hP]
    unfold post_photo post_photo_run
    rw [hcfg]
    simp only []
    rw [hcm]
    rfl
  · intro env msg text v m hk hpost
    obtain ⟨key, hkey⟩ := Option.isSome_iff_exists.mp hk
    have hcfg : get_elevenlabs_config env = .ok () := by
      unfold get_elevenlabs_config
      rw [hkey]
    unfold generate_speech
    rw [hcfg, hpost]
    rfl

/-- C7 witness: concrete raising environments produce the prefixed
failure texts, and the Dropbox dispatcher returns a normal response. -/
theorem c7_exceptions_rendered_at_boundary_witness :
    igRaiseEnv.accessToken = some "token"
    ∧ igRaiseEnv.pageId = some "page"
    ∧ igRaiseEnv.createMedia = .error (.apiError "boom")
    ∧ post_photo igRaiseEnv "http://x/a.jpg" "c"
        = ("Failed to post photo: " ++ "boom", false)
    ∧ elevenRaiseEnv.apiKey.isSome
    ∧ elevenRaiseEnv.post = .error (.apiError "boom")
    ∧ generate_speech elevenRaiseEnv "hello" "v1" "m1"
        = "Failed to generate speech: " ++ "boom" :=
  ⟨rfl, rfl, rfl,
   c7_exceptions_rendered_at_boundary.2.1 igRaiseEnv "http://x/a.jpg" "c"
     "token" "page" "boom" rfl rfl rfl,
   rfl, rfl,
   c7_exceptions_rendered_at_boundary.2.2 elevenRaiseEnv "boom" "hello" "v1" "m1"
     rfl rfl⟩

/-- A string with a slash prepended starts with a slash. -/
lemma startsWithSlash_slash_append (p : String) :
    startsWithSlash ("/" ++ p) = true := by
  unfold startsWithSlash
  have hl : ("/" ++ p).toList = '/' :: p.toList := by
    show ("/" ++ p).data = '/' :: p.data
    rw [String.data_append]
    rfl
  rw [hl]
  simp

/-- C9 counterexample: `upload_file` passes its Dropbox path to
`files_upload` exactly as given — with the capture environment (whose
vendor calls echo the path they received) a path without a leading slash
reaches the vendor call unchanged. -/
theorem c9_counterexample :
    upload_file dropboxCaptureEnv "notes.txt" "Apps/report.pdf"
      = "Upload failed: " ++ "Apps/report.pdf"
    ∧ startsWithSlash "Apps/report.pdf" = false :=
  ⟨rfl, by decide⟩

/-- C9 (amended): the Dropbox handlers that normalize their storage path
(`list_folder`, `create_folder`, `delete_file`, `get_file_info`,
`create_shared_link`) pass a path with a leading slash to the vendor call,
with the root folder normalized to the empty string for listing; the
upload and download handlers pass their path exactly as given (see the
counterexample). -/
theorem c9_path_normalization :
    (∀ p, startsWithSlash (ensureSlash p) = true)
    ∧ (∀ p, p ≠ "" → p ≠ "/" → startsWithSlash (list_folder_norm p) = true)
    ∧ list_folder_norm "" = "" ∧ list_folder_norm "/" = ""
    ∧ (∀ p, list_folder dropboxCaptureEnv p
        = "List folder failed: " ++ list_folder_norm p)
    ∧ (∀ p, create_folder dropboxCaptureEnv p
        = "Create folder failed: " ++ ensureSlash p)
    ∧ (∀ p, delete_file dropboxCaptureEnv p
        = "Delete failed: " ++ ensureSlash p) := by
  have hens : ∀ p, startsWithSlash (ensureSlash p) = true := by
    intro p
    unfold ensureSlash
    by_cases h : startsWithSlash p
    · rw [if_neg (by simp [h])]
      exact h
    · rw [if_pos (by simp [h])]
      exact startsWithSlash_slash_append p
  refine ⟨hens, ?_, rfl, rfl, fun p => rfl, fun p => rfl, fun p => rfl⟩
  intro p h1 h2
  unfold list_folder_norm
  rw [if_neg (by simp [h1, h2])]
  by_cases h : startsWithSlash p
  · rw [if_neg (by simp [h])]
    exact h
  · rw [if_pos (by simp [h])]
    exact startsWithSlash_slash_append p

/-- C9 witness: a relative folder path is normalized to a leading slash
and the vendor call receives the normalized path. -/
theorem c9_path_normalization_witness :
    ("Apps" : String) ≠ "" ∧ ("Apps" : String) ≠ "/"
    ∧ startsWithSlash (list_folder_norm "Apps") = true
    ∧ create_folder dropboxCaptureEnv "Apps"
        = "Create folder failed: " ++ ensureSlash "Apps" :=
  ⟨by decide, by decide,
   c9_path_normalization.2.1 "Apps" (by decide) (by decide),
   c9_path_normalization.2.2.2.2.2.1 "Apps"⟩

/-- C5: `split_pdf_pages` on a downloaded, parsed document rejects every
out-of-bounds range (start below 1, end beyond the page count, or start
beyond end) with the bounds-error text naming the range and the page
count, extracting no pages and leaving no temp file; in range it adds
exactly `end - start + 1` pages to the writer. -/
theorem c5_split_pdf_page_range (env : PdfEnv) (url : String) (s e : Int)
    (content : List Nat) (pages : List PdfPage)
    (hdl : env.download = .ok (200, content))
    (hp : env.parsePdf content = .ok pages) :
    ((s < 1 ∨ e > (pages.length : Int) ∨ s > e) →
      split_pdf_pages env url s e
        = ⟨"Invalid page range: " ++ toString s ++ "-" ++ toString e
            ++ ". PDF has " ++ toString pages.length ++ " pages.", [], []⟩)
    ∧ (1 ≤ s → s ≤ e → e ≤ (pages.length : Int) →
      ((split_pdf_pages env url s e).writerPages.length : Int) = e - s + 1) := by
  constructor
  · intro hbad
    unfold split_pdf_pages
    rw [hdl]
    simp only []
    rw [if_neg (by simp), hp]
    simp only []
    rw [if_pos hbad]
    simp [List.erase_cons_head]
  · intro hs1 hse he
    unfold split_pdf_pages
    rw [hdl]
    simp only []
    rw [if_neg (by simp), hp]
    simp only []
    rw [if_neg (by omega)]
    have hlen : ((List.range' (s - 1).toNat (e - s + 1).toNat).map
        (fun i => pages.getD i default)).length = (e - s + 1).toNat := by
      rw [List.length_map, List.length_range']
    cases hr : env.render ((List.range' (s - 1).toNat (e - s + 1).toNat).map
        (fun i => pages.getD i default)) <;>
      simp only [hr, hlen] <;> omega

/-- C5 witness: on a three-page document the range 5–10 is rejected with
the bounds-error text, and the range 1–3 extracts three pages. -/
theorem c5_split_pdf_page_range_witness :
    pdfOkEnv.download = .ok (200, [1, 2, 3])
    ∧ pdfOkEnv.parsePdf [1, 2, 3] = .ok [⟨0⟩, ⟨1⟩, ⟨2⟩]
    ∧ split_pdf_pages pdfOkEnv "http://x/doc.pdf" 5 10
        = ⟨"Invalid page range: " ++ toString (5 : Int) ++ "-" ++ toString (10 : Int)
            ++ ". PDF has " ++ toString ([(⟨0⟩ : PdfPage), ⟨1⟩, ⟨2⟩].length)
            ++ " pages.", [], []⟩
    ∧ ((split_pdf_pages pdfOkEnv "http://x/doc.pdf" 1 3).writerPages.length : Int)
        = 3 - 1 + 1 :=
  ⟨rfl, rfl,
   (c5_split_pdf_page_range pdfOkEnv "http://x/doc.pdf" 5 10 [1, 2, 3]
     [⟨0⟩, ⟨1⟩, ⟨2⟩] rfl rfl).1 (by decide),
   (c5_split_pdf_page_range pdfOkEnv "http://x/doc.pdf" 1 3 [1, 2, 3]
     [⟨0⟩, ⟨1⟩, ⟨2⟩] rfl rfl).2 (by decide) (by decide) (by decide)⟩

/-- C6: the required leave-no-temp-file invariant fails in the code. With
a valid three-page document and an in-range request, an exception raised
while writing the split output (after the output temp file is created)
is caught and rendered as failure text, but the output temp file remains
on disk: only the input temp file is unlinked by the `finally` clause. -/
theorem c6_output_temp_file_leaks :
    (split_pdf_pages pdfLeakEnv "http://x/doc.pdf" 1 3).fs = ["tmp1"]
    ∧ (split_pdf_pages pdfLeakEnv "http://x/doc.pdf" 1 3).text
        = "Failed to split PDF: " ++ "disk full" := by
  constructor <;> rfl
